import Mathlib

/-!
Verification development for the screenshot annotation tool
(`annotate.js`): a shallow embedding of the annotation-to-SVG
compiler (shape compilers, theme/color resolution, document
assembler) together with theorems checking the specification.

Modelling conventions:
* JavaScript numbers are modelled as exact rationals (`ℚ`).  The
  decimal formatting of floats is abstracted by `numStr`, which
  prints an exact rational; no theorem below depends on the digits
  of a serialized number, only on which numbers are serialized.
* `Math.sqrt` (used only by `createCurvedArrow`) is not exactly
  representable on `ℚ`; the string pipeline uses a Babylonian
  rational approximation `ratSqrt`, while the control-point
  computation is additionally modelled exactly over `ℝ`
  (`curvedLen`, `curvedControl`) for the totality theorem.
* JavaScript objects holding annotation descriptors are modelled as
  a record of optional fields (`Ann`); object-spread theme merging
  becomes field-wise `orElse` (`mergeAnn`).  The JS field names
  `from`/`to` are Lean keywords and appear here as `fromPt`/`toPt`.
* `console.warn` diagnostics are collected in the `warnings` list of
  the build output.
-/

set_option maxRecDepth 20000

/-- JS number serialization stand-in: exact rational printing. -/
def numStr (q : ℚ) : String :=
  if q.den = 1 then toString q.num else toString q.num ++ "/" ++ toString q.den

/-- `Array.prototype.join(sep)`. -/
def joinSep (sep : String) : List String → String
  | [] => ""
  | [s] => s
  | s :: rest => s ++ sep ++ joinSep sep rest

/-- `String.prototype.replace(/c/g, r)`: global single-character replacement. -/
def replaceChar (s : String) (c : Char) (r : String) : String :=
  String.join (s.toList.map (fun ch => if ch = c then r else String.singleton ch))

/-- `String.prototype.replace(c, r)` with a one-character string pattern and
empty replacement: removes the first occurrence only. -/
def removeFirstChar (c : Char) : List Char → List Char
  | [] => []
  | ch :: rest => if ch = c then rest else ch :: removeFirstChar c rest

/-- `String.prototype.split(c)` on a one-character separator, as char lists. -/
def splitCharList (c : Char) : List Char → List (List Char)
  | [] => [[]]
  | ch :: rest =>
    match splitCharList c rest with
    | [] => [[]]
    | cur :: groups => if ch = c then [] :: (cur :: groups) else (ch :: cur) :: groups

def splitChar (c : Char) (s : String) : List String :=
  (splitCharList c s.toList).map (fun l => String.mk l)

/-- `Math.max(...list)`; the `[]` case (JS `-Infinity`) never arises below. -/
def listMax : List ℚ → ℚ
  | [] => 0
  | [q] => q
  | q :: rest => max q (listMax rest)

/-- `String.prototype.padStart(n, c)`. -/
def padStart (s : String) (n : Nat) (c : Char) : String :=
  String.mk (List.replicate (n - s.length) c) ++ s

def hexDigitVal (c : Char) : Option Nat :=
  if '0' ≤ c ∧ c ≤ '9' then
    some (c.toNat - 48)
  else if 'a' ≤ c ∧ c ≤ 'f' then
    some (c.toNat - 97 + 10)
  else if 'A' ≤ c ∧ c ≤ 'F' then
    some (c.toNat - 65 + 10)
  else none

def parseHexAux : List Char → Nat → Nat
  | [], acc => acc
  | c :: rest, acc =>
    match hexDigitVal c with
    | some d => parseHexAux rest (acc * 16 + d)
    | none => acc

/-- `parseInt(s, 16)`: parses the maximal hex-digit prefix.  A string with no
leading hex digit yields JS `NaN`, abstracted here as `0` (never reached by
the palette colors actually passed in). -/
def parseHex (s : String) : Nat := parseHexAux s.toList 0

/-- `n.toString(16)` (lowercase hex digits). -/
def natToHex (n : Nat) : String := String.mk (Nat.toDigits 16 n)

-- Professional color palette (annotate.js lines 16-45)
def COLORS : List (String × String) :=
  [("red", "#E53935"), ("orange", "#FB8C00"), ("yellow", "#FDD835"),
   ("green", "#43A047"), ("blue", "#1E88E5"), ("purple", "#8E24AA"),
   ("pink", "#D81B60"), ("cyan", "#00ACC1"), ("teal", "#00897B"),
   ("white", "#FFFFFF"), ("black", "#212121"), ("gray", "#757575"),
   ("lightGray", "#E0E0E0"), ("darkGray", "#424242"),
   ("success", "#4CAF50"), ("warning", "#FF9800"), ("error", "#F44336"),
   ("info", "#2196F3"),
   ("primary", "#1976D2"), ("secondary", "#7B1FA2"), ("accent", "#FF4081")]

/-- `escapeXml` (lines 78-86): five sequential global replacements.  The
`typeof text !== 'string'` coercion branch is vacuous here since the model
types `text` as a string. -/
def escapeXml (text : String) : String :=
  replaceChar (replaceChar (replaceChar (replaceChar (replaceChar
    text ('&') ("&amp;"))
    ('<') ("&lt;"))
    ('>') ("&gt;"))
    ('\"') ("&quot;"))
    ('\x27') ("&apos;")

/-- `getColor` (lines 91-93): `COLORS[color] || color || COLORS.red`.
A missing (`undefined`) color and the falsy empty string both fall through
to the default `COLORS.red = "#E53935"`. -/
def getColor (color : Option String) : String :=
  match color with
  | some c =>
    match COLORS.lookup c with
    | some hex => hex
    | none => if c = "" then "#E53935" else c
  | none => "#E53935"

/-- `generateId` (lines 98-101): returns `` `${prefix}-${++idCounter}` ``
together with the incremented counter. -/
def generateId (pfx : String) (idCounter : Nat) : String × Nat :=
  (pfx ++ "-" ++ toString (idCounter + 1), idCounter + 1)

/-- `adjustColor` (lines 532-538).  Bit operations on the packed 24-bit color
are written arithmetically: `num >> 16` is `num / 2^16`, `(num >> 8) & 0xFF`
is `num / 2^8 % 2^8`, `num & 0xFF` is `num % 2^8`, and
`(r << 16) | (g << 8) | b` on clamped bytes is `r * 2^16 + g * 2^8 + b`. -/
def adjustColor (hex : String) (amount : Int) : String :=
  let num : Nat := parseHex (String.mk (removeFirstChar ('#') hex.toList))
  let r : Int := min 255 (max 0 ((num / 65536 : Nat) + amount))
  let g : Int := min 255 (max 0 ((num / 256 % 256 : Nat) + amount))
  let b : Int := min 255 (max 0 ((num % 256 : Nat) + amount))
  "#" ++ padStart (natToHex (r.toNat * 65536 + g.toNat * 256 + b.toNat)) 6 ('0')

/-- `createDropShadow` (lines 106-112). -/
def createDropShadow (id : String) (blur : ℚ) (opacity : ℚ) : String :=
  "\n    <filter id=\"" ++ id ++ "\" x=\"-50%\" y=\"-50%\" width=\"200%\" height=\"200%\">\n      <feDropShadow dx=\"2\" dy=\"2\" stdDeviation=\"" ++ numStr blur ++ "\" flood-opacity=\"" ++ numStr opacity ++ "\"/>\n    </filter>\n  "

/-- One annotation descriptor: a JS object with optional fields (§6 boundary
contract).  `from`/`to` are Lean keywords and are named `fromPt`/`toPt`. -/
structure Ann where
  type : String := ""
  x : Option ℚ := none
  y : Option ℚ := none
  number : Option ℚ := none
  text : Option String := none
  fromPt : Option (ℚ × ℚ) := none
  toPt : Option (ℚ × ℚ) := none
  width : Option ℚ := none
  height : Option ℚ := none
  radius : Option ℚ := none
  color : Option String := none
  background : Option String := none
  size : Option ℚ := none
  fontSize : Option ℚ := none
  fontWeight : Option String := none
  strokeWidth : Option ℚ := none
  style : Option String := none
  pointer : Option String := none
  icon : Option String := none
  shadow : Option Bool := none
  curve : Option ℚ := none
  cornerRadius : Option ℚ := none
  opacity : Option ℚ := none
  fill : Option String := none
  intensity : Option ℚ := none
  padding : Option ℚ := none
  headStyle : Option String := none
deriving DecidableEq, Repr

/-- The `{defs, element}` pair returned by every shape compiler. -/
structure Fragment where
  defs : String
  element : String
deriving DecidableEq, Repr

/-- Badge pill width (lines 157-158):
`isMultiDigit = number > 9; width = isMultiDigit ? size * 1.6 : size * 2`. -/
def markerBadgeWidth (size number : ℚ) : ℚ :=
  if number > 9 then size * 1.6 else size * 2

/-- `createMarker` (lines 117-169). -/
def createMarker (idCounter : Nat) (a : Ann) : Fragment × Nat :=
  let x := a.x.getD 0
  let y := a.y.getD 0
  let number := a.number.getD 0
  let color := a.color.getD ("red")
  let size := a.size.getD 28
  let shadow := a.shadow.getD true
  let style := a.style.getD ("filled")
  let c := getColor (some color)
  let (id, c1) := generateId ("marker") idCounter
  let gradientId := id ++ "-gradient"
  let shadowDefs : List String :=
    if shadow then [createDropShadow (id ++ "-shadow") 4 0.3] else []
  let gradientDef :=
    "\n    <linearGradient id=\"" ++ gradientId ++ "\" x1=\"0%\" y1=\"0%\" x2=\"0%\" y2=\"100%\">\n      <stop offset=\"0%\" style=\"stop-color:" ++ c ++ ";stop-opacity:1\" />\n      <stop offset=\"100%\" style=\"stop-color:" ++ adjustColor c (-30) ++ ";stop-opacity:1\" />\n    </linearGradient>\n  "
  let defs := shadowDefs ++ [gradientDef]
  let filterAttr := if shadow then "filter=\"url(#" ++ id ++ "-shadow)\"" else ""
  let elements : List String :=
    if style = "filled" then
      ["\n      <circle cx=\"" ++ numStr x ++ "\" cy=\"" ++ numStr y ++ "\" r=\"" ++ numStr size ++ "\" fill=\"url(#" ++ gradientId ++ ")\" " ++ filterAttr ++ "/>\n      <circle cx=\"" ++ numStr x ++ "\" cy=\"" ++ numStr y ++ "\" r=\"" ++ numStr (size - 2) ++ "\" fill=\"none\" stroke=\"rgba(255,255,255,0.3)\" stroke-width=\"2\"/>\n      <text x=\"" ++ numStr x ++ "\" y=\"" ++ numStr (y + size * 0.35) ++ "\" text-anchor=\"middle\" fill=\"white\"\n            font-size=\"" ++ numStr (size * 0.9) ++ "\" font-weight=\"bold\" font-family=\"Arial, Helvetica, sans-serif\">" ++ numStr number ++ "</text>\n    "]
    else if style = "outline" then
      ["\n      <circle cx=\"" ++ numStr x ++ "\" cy=\"" ++ numStr y ++ "\" r=\"" ++ numStr size ++ "\" fill=\"white\" stroke=\"" ++ c ++ "\" stroke-width=\"3\" " ++ filterAttr ++ "/>\n      <text x=\"" ++ numStr x ++ "\" y=\"" ++ numStr (y + size * 0.35) ++ "\" text-anchor=\"middle\" fill=\"" ++ c ++ "\"\n            font-size=\"" ++ numStr (size * 0.9) ++ "\" font-weight=\"bold\" font-family=\"Arial, Helvetica, sans-serif\">" ++ numStr number ++ "</text>\n    "]
    else if style = "badge" then
      let width := markerBadgeWidth size number
      let height := size * 2
      ["\n      <rect x=\"" ++ numStr (x - width / 2) ++ "\" y=\"" ++ numStr (y - height / 2) ++ "\" width=\"" ++ numStr width ++ "\" height=\"" ++ numStr height ++ "\"\n            rx=\"" ++ numStr (height / 2) ++ "\" fill=\"url(#" ++ gradientId ++ ")\" " ++ filterAttr ++ "/>\n      <text x=\"" ++ numStr x ++ "\" y=\"" ++ numStr (y + size * 0.35) ++ "\" text-anchor=\"middle\" fill=\"white\"\n            font-size=\"" ++ numStr (size * 0.9) ++ "\" font-weight=\"bold\" font-family=\"Arial, Helvetica, sans-serif\">" ++ numStr number ++ "</text>\n    "]
    else []
  (⟨joinSep ("\n") defs, joinSep ("\n") elements⟩, c1)

/-- `createArrow` (lines 174-215). -/
def createArrow (idCounter : Nat) (a : Ann) : Fragment × Nat :=
  let color := a.color.getD ("red")
  let strokeWidth := a.strokeWidth.getD 3
  let style := a.style.getD ("solid")
  let headStyle := a.headStyle.getD ("filled")
  let shadow := a.shadow.getD true
  let c := getColor (some color)
  let (x1, y1) := a.fromPt.getD (0, 0)
  let (x2, y2) := a.toPt.getD (0, 0)
  let (id, c1) := generateId ("arrow") idCounter
  let shadowDefs : List String :=
    if shadow then [createDropShadow (id ++ "-shadow") 2 0.2] else []
  let headSize := max 10 (strokeWidth * 3)
  let headDefs : List String :=
    if headStyle = "filled" then
      ["\n      <marker id=\"" ++ id ++ "-head\" markerWidth=\"" ++ numStr headSize ++ "\" markerHeight=\"" ++ numStr (headSize * 0.7) ++ "\"\n              refX=\"" ++ numStr (headSize - 1) ++ "\" refY=\"" ++ numStr (headSize * 0.35) ++ "\" orient=\"auto\" markerUnits=\"userSpaceOnUse\">\n        <polygon points=\"0 0, " ++ numStr headSize ++ " " ++ numStr (headSize * 0.35) ++ ", 0 " ++ numStr (headSize * 0.7) ++ "\" fill=\"" ++ c ++ "\"/>\n      </marker>\n    "]
    else if headStyle = "open" then
      ["\n      <marker id=\"" ++ id ++ "-head\" markerWidth=\"" ++ numStr headSize ++ "\" markerHeight=\"" ++ numStr (headSize * 0.7) ++ "\"\n              refX=\"" ++ numStr (headSize - 1) ++ "\" refY=\"" ++ numStr (headSize * 0.35) ++ "\" orient=\"auto\" markerUnits=\"userSpaceOnUse\">\n        <polyline points=\"0 0, " ++ numStr headSize ++ " " ++ numStr (headSize * 0.35) ++ ", 0 " ++ numStr (headSize * 0.7) ++ "\"\n                  fill=\"none\" stroke=\"" ++ c ++ "\" stroke-width=\"2\" stroke-linejoin=\"round\"/>\n      </marker>\n    "]
    else []
  let dashArray := if style = "dashed" then "stroke-dasharray=\"10,5\"" else ""
  let filterAttr := if shadow then "filter=\"url(#" ++ id ++ "-shadow)\"" else ""
  let element :=
    "\n    <line x1=\"" ++ numStr x1 ++ "\" y1=\"" ++ numStr y1 ++ "\" x2=\"" ++ numStr x2 ++ "\" y2=\"" ++ numStr y2 ++ "\"\n          stroke=\"" ++ c ++ "\" stroke-width=\"" ++ numStr strokeWidth ++ "\" stroke-linecap=\"round\"\n          marker-end=\"url(#" ++ id ++ "-head)\" " ++ dashArray ++ " " ++ filterAttr ++ "/>\n  "
  (⟨joinSep ("\n") (shadowDefs ++ headDefs), element⟩, c1)

/-- Babylonian iteration: a computable stand-in for IEEE `Math.sqrt`, used
only to feed the serialized control point of `createCurvedArrow`.  The
totality analysis of the control-point computation (claim about division by
zero) is carried out exactly over `ℝ` by `curvedLen`/`curvedControl` below. -/
def ratSqrtIter : Nat → ℚ → ℚ → ℚ
  | 0, _, s => s
  | n + 1, q, s => ratSqrtIter n q ((s + q / s) / 2)

def ratSqrt (q : ℚ) : ℚ :=
  if q ≤ 0 then 0 else ratSqrtIter 16 q q

/-- `createCurvedArrow` (lines 220-261). -/
def createCurvedArrow (idCounter : Nat) (a : Ann) : Fragment × Nat :=
  let curve := a.curve.getD 50
  let color := a.color.getD ("red")
  let strokeWidth := a.strokeWidth.getD 3
  let shadow := a.shadow.getD true
  let c := getColor (some color)
  let (x1, y1) := a.fromPt.getD (0, 0)
  let (x2, y2) := a.toPt.getD (0, 0)
  let (id, c1) := generateId ("curved-arrow") idCounter
  let midX := (x1 + x2) / 2
  let midY := (y1 + y2) / 2
  let dx := x2 - x1
  let dy := y2 - y1
  -- line 232: `Math.sqrt(dx * dx + dy * dy) || 1`
  let lenRaw := ratSqrt (dx * dx + dy * dy)
  let len := if lenRaw = 0 then 1 else lenRaw
  let nx := -dy / len
  let ny := dx / len
  let cx := midX + nx * curve
  let cy := midY + ny * curve
  let shadowDefs : List String :=
    if shadow then [createDropShadow (id ++ "-shadow") 2 0.2] else []
  let headSize := max 10 (strokeWidth * 3)
  let headDef :=
    "\n    <marker id=\"" ++ id ++ "-head\" markerWidth=\"" ++ numStr headSize ++ "\" markerHeight=\"" ++ numStr (headSize * 0.7) ++ "\"\n            refX=\"" ++ numStr (headSize - 1) ++ "\" refY=\"" ++ numStr (headSize * 0.35) ++ "\" orient=\"auto\" markerUnits=\"userSpaceOnUse\">\n      <polygon points=\"0 0, " ++ numStr headSize ++ " " ++ numStr (headSize * 0.35) ++ ", 0 " ++ numStr (headSize * 0.7) ++ "\" fill=\"" ++ c ++ "\"/>\n    </marker>\n  "
  let filterAttr := if shadow then "filter=\"url(#" ++ id ++ "-shadow)\"" else ""
  let element :=
    "\n    <path d=\"M" ++ numStr x1 ++ "," ++ numStr y1 ++ " Q" ++ numStr cx ++ "," ++ numStr cy ++ " " ++ numStr x2 ++ "," ++ numStr y2 ++ "\"\n          fill=\"none\" stroke=\"" ++ c ++ "\" stroke-width=\"" ++ numStr strokeWidth ++ "\" stroke-linecap=\"round\"\n          marker-end=\"url(#" ++ id ++ "-head)\" " ++ filterAttr ++ "/>\n  "
  (⟨joinSep ("\n") (shadowDefs ++ [headDef]), element⟩, c1)

/-- JS truthiness for optional string fields (`null`/absent and `""` are
falsy). -/
def strTruthy (s : Option String) : Bool :=
  match s with
  | none => false
  | some v => !(v == "")

/-- The per-line `<tspan>` builder of `createCallout` (lines 318-320): one
tspan per line of the split text, `dy` 0 for the first line and `lineHeight`
for the rest, the line text escaped. -/
def calloutTspan (boxX padding lineHeight : ℚ) (p : ℕ × String) : String :=
  let dyv := if p.1 = 0 then (0 : ℚ) else lineHeight
  "<tspan x=\"" ++ numStr (boxX + padding) ++ "\" dy=\"" ++ numStr dyv ++ "\">" ++ escapeXml p.2 ++ "</tspan>"

/-- `createCallout` (lines 266-335). -/
def createCallout (idCounter : Nat) (a : Ann) : Fragment × Nat :=
  let x := a.x.getD 0
  let y := a.y.getD 0
  let text := a.text.getD ("")
  let color := a.color.getD ("primary")
  let background := a.background.getD ("white")
  let pointer := a.pointer.getD ("bottom")
  let fontSize := a.fontSize.getD 16
  let shadow := a.shadow.getD true
  let borderColor := getColor (some color)
  let bgColor := getColor (some background)
  let (id, c1) := generateId ("callout") idCounter
  let padding : ℚ := 12
  let lineHeight := fontSize * 1.4
  let lines := splitChar ('\n') text
  -- `width || Math.max(...lines.map(l => l.length * fontSize * 0.6)) + padding * 2`
  let autoWidth := listMax (lines.map (fun l => (l.length : ℚ) * fontSize * 0.6)) + padding * 2
  let textWidth := match a.width with
    | some w => if w = 0 then autoWidth else w
    | none => autoWidth
  let textHeight := (lines.length : ℚ) * lineHeight + padding * 2
  let shadowDefs : List String :=
    if shadow then [createDropShadow (id ++ "-shadow") 4 0.15] else []
  let filterAttr := if shadow then "filter=\"url(#" ++ id ++ "-shadow)\"" else ""
  let pointerSize : ℚ := 12
  let (boxX, boxY, pointerPath) :=
    if pointer = "top" then
      (x - textWidth / 2, y + pointerSize,
       "M" ++ numStr (x - pointerSize) ++ "," ++ numStr (y + pointerSize) ++ " L" ++ numStr x ++ "," ++ numStr y ++ " L" ++ numStr (x + pointerSize) ++ "," ++ numStr (y + pointerSize))
    else if pointer = "bottom" then
      (x - textWidth / 2, y - textHeight - pointerSize,
       "M" ++ numStr (x - pointerSize) ++ "," ++ numStr (y - pointerSize) ++ " L" ++ numStr x ++ "," ++ numStr y ++ " L" ++ numStr (x + pointerSize) ++ "," ++ numStr (y - pointerSize))
    else if pointer = "left" then
      (x + pointerSize, y - textHeight / 2,
       "M" ++ numStr (x + pointerSize) ++ "," ++ numStr (y - pointerSize) ++ " L" ++ numStr x ++ "," ++ numStr y ++ " L" ++ numStr (x + pointerSize) ++ "," ++ numStr (y + pointerSize))
    else if pointer = "right" then
      (x - textWidth - pointerSize, y - textHeight / 2,
       "M" ++ numStr (x - pointerSize) ++ "," ++ numStr (y - pointerSize) ++ " L" ++ numStr x ++ "," ++ numStr y ++ " L" ++ numStr (x - pointerSize) ++ "," ++ numStr (y + pointerSize))
    else
      (x, y, "")
  let textElements := joinSep ("") ((lines.enum).map (calloutTspan boxX padding lineHeight))
  let pointerElem :=
    if pointerPath = "" then ""
    else "<path d=\"" ++ pointerPath ++ "\" fill=\"" ++ bgColor ++ "\" stroke=\"" ++ borderColor ++ "\" stroke-width=\"2\"/>"
  let element :=
    "\n    <g " ++ filterAttr ++ ">\n      <rect x=\"" ++ numStr boxX ++ "\" y=\"" ++ numStr boxY ++ "\" width=\"" ++ numStr textWidth ++ "\" height=\"" ++ numStr textHeight ++ "\"\n            rx=\"6\" fill=\"" ++ bgColor ++ "\" stroke=\"" ++ borderColor ++ "\" stroke-width=\"2\"/>\n      " ++ pointerElem ++ "\n      <text x=\"" ++ numStr (boxX + padding) ++ "\" y=\"" ++ numStr (boxY + padding + fontSize) ++ "\"\n            fill=\"" ++ getColor (some ("darkGray")) ++ "\" font-size=\"" ++ numStr fontSize ++ "\" font-family=\"Arial, Helvetica, sans-serif\">\n        " ++ textElements ++ "\n      </text>\n    </g>\n  "
  (⟨joinSep ("\n") shadowDefs, element⟩, c1)

/-- `createRect` (lines 340-359). -/
def createRect (idCounter : Nat) (a : Ann) : Fragment × Nat :=
  let x := a.x.getD 0
  let y := a.y.getD 0
  let width := a.width.getD 0
  let height := a.height.getD 0
  let color := a.color.getD ("red")
  let strokeWidth := a.strokeWidth.getD 3
  let fill := a.fill.getD ("none")
  let cornerRadius := a.cornerRadius.getD 8
  let style := a.style.getD ("solid")
  let shadow := a.shadow.getD false
  let c := getColor (some color)
  let fillColor := if fill = "none" then "none" else getColor (some fill)
  let (id, c1) := generateId ("rect") idCounter
  let shadowDefs : List String :=
    if shadow then [createDropShadow (id ++ "-shadow") 4 0.3] else []
  let dashArray := if style = "dashed" then "stroke-dasharray=\"10,5\"" else ""
  let filterAttr := if shadow then "filter=\"url(#" ++ id ++ "-shadow)\"" else ""
  let element :=
    "\n    <rect x=\"" ++ numStr x ++ "\" y=\"" ++ numStr y ++ "\" width=\"" ++ numStr width ++ "\" height=\"" ++ numStr height ++ "\" rx=\"" ++ numStr cornerRadius ++ "\"\n          fill=\"" ++ fillColor ++ "\" stroke=\"" ++ c ++ "\" stroke-width=\"" ++ numStr strokeWidth ++ "\" " ++ dashArray ++ " " ++ filterAttr ++ "/>\n  "
  (⟨joinSep ("\n") shadowDefs, element⟩, c1)

/-- `createCircle` (lines 364-383). -/
def createCircle (idCounter : Nat) (a : Ann) : Fragment × Nat :=
  let x := a.x.getD 0
  let y := a.y.getD 0
  let radius := a.radius.getD 30
  let color := a.color.getD ("red")
  let strokeWidth := a.strokeWidth.getD 3
  let fill := a.fill.getD ("none")
  let style := a.style.getD ("solid")
  let shadow := a.shadow.getD false
  let c := getColor (some color)
  let fillColor := if fill = "none" then "none" else getColor (some fill)
  let (id, c1) := generateId ("circle") idCounter
  let shadowDefs : List String :=
    if shadow then [createDropShadow (id ++ "-shadow") 4 0.3] else []
  let dashArray := if style = "dashed" then "stroke-dasharray=\"8,4\"" else ""
  let filterAttr := if shadow then "filter=\"url(#" ++ id ++ "-shadow)\"" else ""
  let element :=
    "\n    <circle cx=\"" ++ numStr x ++ "\" cy=\"" ++ numStr y ++ "\" r=\"" ++ numStr radius ++ "\"\n            fill=\"" ++ fillColor ++ "\" stroke=\"" ++ c ++ "\" stroke-width=\"" ++ numStr strokeWidth ++ "\" " ++ dashArray ++ " " ++ filterAttr ++ "/>\n  "
  (⟨joinSep ("\n") shadowDefs, element⟩, c1)

/-- `createLabel` (lines 388-419). -/
def createLabel (idCounter : Nat) (a : Ann) : Fragment × Nat :=
  let x := a.x.getD 0
  let y := a.y.getD 0
  let text := a.text.getD ("")
  let color := a.color.getD ("darkGray")
  let fontSize := a.fontSize.getD 16
  let fontWeight := a.fontWeight.getD ("bold")
  let padding := a.padding.getD 8
  let cornerRadius := a.cornerRadius.getD 4
  let shadow := a.shadow.getD false
  let textColor := getColor (some color)
  let (id, c1) := generateId ("label") idCounter
  let textWidth := (text.length : ℚ) * fontSize * 0.6
  let textHeight := fontSize * 1.2
  let shadowDefs : List String :=
    if shadow && strTruthy a.background then [createDropShadow (id ++ "-shadow") 3 0.15] else []
  let filterAttr :=
    if shadow && strTruthy a.background then "filter=\"url(#" ++ id ++ "-shadow)\"" else ""
  let bgElems : List String :=
    if strTruthy a.background then
      let bgColor := getColor (some (a.background.getD ("")))
      ["\n      <rect x=\"" ++ numStr (x - padding) ++ "\" y=\"" ++ numStr (y - textHeight - padding + 4) ++ "\"\n            width=\"" ++ numStr (textWidth + padding * 2) ++ "\" height=\"" ++ numStr (textHeight + padding * 2) ++ "\"\n            rx=\"" ++ numStr cornerRadius ++ "\" fill=\"" ++ bgColor ++ "\" " ++ filterAttr ++ "/>\n    "]
    else []
  let textElem :=
    "\n    <text x=\"" ++ numStr x ++ "\" y=\"" ++ numStr y ++ "\" fill=\"" ++ textColor ++ "\" font-size=\"" ++ numStr fontSize ++ "\"\n          font-weight=\"" ++ fontWeight ++ "\" font-family=\"Arial, Helvetica, sans-serif\">" ++ escapeXml text ++ "</text>\n  "
  (⟨joinSep ("\n") shadowDefs, joinSep ("\n") (bgElems ++ [textElem])⟩, c1)

/-- `createHighlight` (lines 424-430): no id, no defs. -/
def createHighlight (idCounter : Nat) (a : Ann) : Fragment × Nat :=
  let x := a.x.getD 0
  let y := a.y.getD 0
  let width := a.width.getD 0
  let height := a.height.getD 0
  let color := a.color.getD ("yellow")
  let opacity := a.opacity.getD 0.35
  let cornerRadius := a.cornerRadius.getD 0
  let c := getColor (some color)
  (⟨"", "<rect x=\"" ++ numStr x ++ "\" y=\"" ++ numStr y ++ "\" width=\"" ++ numStr width ++ "\" height=\"" ++ numStr height ++ "\" rx=\"" ++ numStr cornerRadius ++ "\" fill=\"" ++ c ++ "\" opacity=\"" ++ numStr opacity ++ "\"/>"⟩, idCounter)

/-- `createBlur` (lines 435-445). -/
def createBlur (idCounter : Nat) (a : Ann) : Fragment × Nat :=
  let x := a.x.getD 0
  let y := a.y.getD 0
  let width := a.width.getD 0
  let height := a.height.getD 0
  let intensity := a.intensity.getD 8
  let (id, c1) := generateId ("blur") idCounter
  (⟨"\n      <filter id=\"" ++ id ++ "\">\n        <feGaussianBlur stdDeviation=\"" ++ numStr intensity ++ "\"/>\n      </filter>\n    ",
    "<rect x=\"" ++ numStr x ++ "\" y=\"" ++ numStr y ++ "\" width=\"" ++ numStr width ++ "\" height=\"" ++ numStr height ++ "\" fill=\"#808080\" filter=\"url(#" ++ id ++ ")\"/>"⟩, c1)

/-- `createConnector` (lines 450-460): no id, no defs. -/
def createConnector (idCounter : Nat) (a : Ann) : Fragment × Nat :=
  let color := a.color.getD ("gray")
  let strokeWidth := a.strokeWidth.getD 2
  let style := a.style.getD ("dashed")
  let c := getColor (some color)
  let (x1, y1) := a.fromPt.getD (0, 0)
  let (x2, y2) := a.toPt.getD (0, 0)
  let dashArray := if style = "dashed" then "stroke-dasharray=\"6,4\"" else ""
  (⟨"", "<line x1=\"" ++ numStr x1 ++ "\" y1=\"" ++ numStr y1 ++ "\" x2=\"" ++ numStr x2 ++ "\" y2=\"" ++ numStr y2 ++ "\" stroke=\"" ++ c ++ "\" stroke-width=\"" ++ numStr strokeWidth ++ "\" " ++ dashArray ++ "/>"⟩, idCounter)

/-- `createIcon` (lines 465-527). -/
def createIcon (idCounter : Nat) (a : Ann) : Fragment × Nat :=
  let x := a.x.getD 0
  let y := a.y.getD 0
  let icon := a.icon.getD ("")
  let color := a.color.getD ("green")
  let size := a.size.getD 24
  let shadow := a.shadow.getD true
  let c := getColor (some color)
  let (id, c1) := generateId ("icon") idCounter
  let shadowDefs : List String :=
    if shadow then [createDropShadow (id ++ "-shadow") 4 0.3] else []
  let filterAttr := if shadow then "filter=\"url(#" ++ id ++ "-shadow)\"" else ""
  let iconPath :=
    if icon = "check" ∨ icon = "checkmark" then
      "<path d=\"M" ++ numStr (x - size * 0.3) ++ "," ++ numStr y ++ " L" ++ numStr (x - size * 0.1) ++ "," ++ numStr (y + size * 0.25) ++ " L" ++ numStr (x + size * 0.35) ++ "," ++ numStr (y - size * 0.25) ++ "\"\n                       fill=\"none\" stroke=\"white\" stroke-width=\"3\" stroke-linecap=\"round\" stroke-linejoin=\"round\"/>"
    else if icon = "x" ∨ icon = "cross" then
      "\n        <line x1=\"" ++ numStr (x - size * 0.2) ++ "\" y1=\"" ++ numStr (y - size * 0.2) ++ "\" x2=\"" ++ numStr (x + size * 0.2) ++ "\" y2=\"" ++ numStr (y + size * 0.2) ++ "\" stroke=\"white\" stroke-width=\"3\" stroke-linecap=\"round\"/>\n        <line x1=\"" ++ numStr (x + size * 0.2) ++ "\" y1=\"" ++ numStr (y - size * 0.2) ++ "\" x2=\"" ++ numStr (x - size * 0.2) ++ "\" y2=\"" ++ numStr (y + size * 0.2) ++ "\" stroke=\"white\" stroke-width=\"3\" stroke-linecap=\"round\"/>\n      "
    else if icon = "warning" ∨ icon = "!" then
      "\n        <line x1=\"" ++ numStr x ++ "\" y1=\"" ++ numStr (y - size * 0.15) ++ "\" x2=\"" ++ numStr x ++ "\" y2=\"" ++ numStr (y + size * 0.05) ++ "\" stroke=\"white\" stroke-width=\"3\" stroke-linecap=\"round\"/>\n        <circle cx=\"" ++ numStr x ++ "\" cy=\"" ++ numStr (y + size * 0.25) ++ "\" r=\"2\" fill=\"white\"/>\n      "
    else if icon = "info" ∨ icon = "i" then
      "\n        <circle cx=\"" ++ numStr x ++ "\" cy=\"" ++ numStr (y - size * 0.2) ++ "\" r=\"2\" fill=\"white\"/>\n        <line x1=\"" ++ numStr x ++ "\" y1=\"" ++ numStr (y - size * 0.05) ++ "\" x2=\"" ++ numStr x ++ "\" y2=\"" ++ numStr (y + size * 0.25) ++ "\" stroke=\"white\" stroke-width=\"3\" stroke-linecap=\"round\"/>\n      "
    else if icon = "question" ∨ icon = "?" then
      "\n        <path d=\"M" ++ numStr (x - size * 0.15) ++ "," ++ numStr (y - size * 0.25) ++ " Q" ++ numStr (x - size * 0.15) ++ "," ++ numStr (y - size * 0.4) ++ " " ++ numStr x ++ "," ++ numStr (y - size * 0.4) ++ "\n                Q" ++ numStr (x + size * 0.2) ++ "," ++ numStr (y - size * 0.4) ++ " " ++ numStr (x + size * 0.2) ++ "," ++ numStr (y - size * 0.2) ++ "\n                Q" ++ numStr (x + size * 0.2) ++ "," ++ numStr (y - size * 0.05) ++ " " ++ numStr x ++ "," ++ numStr y ++ "\"\n              fill=\"none\" stroke=\"white\" stroke-width=\"2.5\" stroke-linecap=\"round\"/>\n        <circle cx=\"" ++ numStr x ++ "\" cy=\"" ++ numStr (y + size * 0.2) ++ "\" r=\"2\" fill=\"white\"/>\n      "
    else ""
  let element :=
    "\n      <g " ++ filterAttr ++ ">\n        <circle cx=\"" ++ numStr x ++ "\" cy=\"" ++ numStr y ++ "\" r=\"" ++ numStr size ++ "\" fill=\"" ++ c ++ "\"/>\n        " ++ iconPath ++ "\n      </g>\n    "
  (⟨joinSep ("\n") shadowDefs, element⟩, c1)

/-- A partial default descriptor supplied by a theme (the only fields any
theme in `THEMES` sets are color, size, strokeWidth, fontSize, background). -/
structure Defaults where
  color : Option String := none
  size : Option ℚ := none
  strokeWidth : Option ℚ := none
  fontSize : Option ℚ := none
  background : Option String := none
deriving DecidableEq, Repr

/-- `THEMES.documentation` (lines 49-54), as the lookup `themeDefaults[ty]`. -/
def documentationTheme (ty : String) : Option Defaults :=
  if ty = "marker" then some { color := some ("primary"), size := some 28 }
  else if ty = "arrow" then some { color := some ("primary"), strokeWidth := some 3 }
  else if ty = "label" then some { color := some ("primary"), fontSize := some 18, background := some ("white") }
  else if ty = "callout" then some { color := some ("primary"), background := some ("white") }
  else none

/-- `THEMES.tutorial` (lines 55-60). -/
def tutorialTheme (ty : String) : Option Defaults :=
  if ty = "marker" then some { color := some ("green"), size := some 32 }
  else if ty = "arrow" then some { color := some ("green"), strokeWidth := some 4 }
  else if ty = "label" then some { color := some ("darkGray"), fontSize := some 20, background := some ("lightGray") }
  else if ty = "callout" then some { color := some ("green"), background := some ("white") }
  else none

/-- `THEMES.bugReport` (lines 61-66). -/
def bugReportTheme (ty : String) : Option Defaults :=
  if ty = "marker" then some { color := some ("error"), size := some 28 }
  else if ty = "arrow" then some { color := some ("error"), strokeWidth := some 3 }
  else if ty = "label" then some { color := some ("error"), fontSize := some 18, background := some ("white") }
  else if ty = "callout" then some { color := some ("error"), background := some ("white") }
  else none

/-- `THEMES.highlight` (lines 67-72). -/
def highlightTheme (ty : String) : Option Defaults :=
  if ty = "marker" then some { color := some ("warning"), size := some 28 }
  else if ty = "arrow" then some { color := some ("warning"), strokeWidth := some 3 }
  else if ty = "label" then some { color := some ("darkGray"), fontSize := some 18, background := some ("yellow") }
  else if ty = "callout" then some { color := some ("warning"), background := some ("yellow") }
  else none

/-- `THEMES[name]` (lines 48-73): the four preset themes. -/
def THEMES (name : String) : Option (String → Option Defaults) :=
  if name = "documentation" then some documentationTheme
  else if name = "tutorial" then some tutorialTheme
  else if name = "bugReport" then some bugReportTheme
  else if name = "highlight" then some highlightTheme
  else none

/-- Object spread `{ ...themeDefaults[ann.type], ...ann }` (line 556): a field
present on the annotation wins; a field the annotation lacks is taken from the
theme default. -/
def mergeAnn (d : Defaults) (a : Ann) : Ann :=
  { a with
    color := match a.color with | some v => some v | none => d.color
    size := match a.size with | some v => some v | none => d.size
    strokeWidth := match a.strokeWidth with | some v => some v | none => d.strokeWidth
    fontSize := match a.fontSize with | some v => some v | none => d.fontSize
    background := match a.background with | some v => some v | none => d.background }

/-- Lines 555-557: `themeDefaults && themeDefaults[ann.type] ?
{ ...themeDefaults[ann.type], ...ann } : ann`. -/
def mergeWithTheme (themeDefaults : Option (String → Option Defaults)) (a : Ann) : Ann :=
  match themeDefaults with
  | none => a
  | some f =>
    match f a.type with
    | none => a
    | some d => mergeAnn d a

/-- One iteration of the assembler loop body (lines 553-604): theme merge
followed by the `switch (ann.type)` dispatch.  `none` is the `default:` arm
(unknown type). -/
def compileAnn (themeDefaults : Option (String → Option Defaults)) (idCounter : Nat)
    (ann : Ann) : Option (Fragment × Nat) :=
  let mergedAnn := mergeWithTheme themeDefaults ann
  if ann.type = "marker" ∨ ann.type = "number" then some (createMarker idCounter mergedAnn)
  else if ann.type = "arrow" then some (createArrow idCounter mergedAnn)
  else if ann.type = "curved-arrow" ∨ ann.type = "curvedArrow" then some (createCurvedArrow idCounter mergedAnn)
  else if ann.type = "callout" then some (createCallout idCounter mergedAnn)
  else if ann.type = "rect" ∨ ann.type = "rectangle" ∨ ann.type = "box" then some (createRect idCounter mergedAnn)
  else if ann.type = "circle" then some (createCircle idCounter mergedAnn)
  else if ann.type = "label" ∨ ann.type = "text" then some (createLabel idCounter mergedAnn)
  else if ann.type = "highlight" then some (createHighlight idCounter mergedAnn)
  else if ann.type = "blur" then some (createBlur idCounter mergedAnn)
  else if ann.type = "connector" ∨ ann.type = "line" then some (createConnector idCounter mergedAnn)
  else if ann.type = "icon" then some (createIcon idCounter mergedAnn)
  else none

/-- The type strings the dispatch switch accepts (canonical names plus
aliases). -/
def knownTypes : List String :=
  ["marker", "number", "arrow", "curved-arrow", "curvedArrow", "callout",
   "rect", "rectangle", "box", "circle", "label", "text", "highlight",
   "blur", "connector", "line", "icon"]

def knownType (t : String) : Bool := decide (t ∈ knownTypes)

/-- Accumulated output of the assembler loop: final id counter, the `defs`
and `elements` arrays in push order, and the `console.warn` diagnostics. -/
structure BuildOut where
  counter : Nat
  defs : List String
  elements : List String
  warnings : List String
deriving DecidableEq, Repr

/-- The `for (const ann of annotations)` loop of `buildSvg` (lines 553-610).
A compiled fragment's `defs`/`element` are pushed only when nonempty
(`if (result.defs)` / `if (result.element)`); an unknown type warns and
continues. -/
def buildRun (themeDefaults : Option (String → Option Defaults)) (idCounter : Nat) :
    List Ann → BuildOut
  | [] => ⟨idCounter, [], [], []⟩
  | ann :: rest =>
    match compileAnn themeDefaults idCounter ann with
    | none =>
      let out := buildRun themeDefaults idCounter rest
      { out with warnings := ("Unknown annotation type: " ++ ann.type) :: out.warnings }
    | some (fr, c1) =>
      let out := buildRun themeDefaults c1 rest
      { out with
        defs := if fr.defs = "" then out.defs else fr.defs :: out.defs
        elements := if fr.element = "" then out.elements else fr.element :: out.elements }

/-- The document envelope (lines 612-618). -/
def svgEnvelope (width height : ℚ) (defs elements : List String) : String :=
  "<?xml version=\"1.0\" encoding=\"UTF-8\"?>\n<svg width=\"" ++ numStr width ++ "\" height=\"" ++ numStr height ++ "\" xmlns=\"http://www.w3.org/2000/svg\">\n  <defs>\n    " ++ joinSep ("\n") defs ++ "\n  </defs>\n  " ++ joinSep ("\n") elements ++ "\n</svg>"

/-- `buildSvg` (lines 543-619) with the id counter reset (line 545) made
explicit by starting `buildRun` at 0. -/
def buildSvg (width height : ℚ) (annotations : List Ann) (theme : Option String) : String :=
  let themeDefaults := theme.bind THEMES
  let out := buildRun themeDefaults 0 annotations
  svgEnvelope width height out.defs out.elements

/-- The element sequence of the assembled document, in push order. -/
def buildElements (theme : Option String) (annotations : List Ann) : List String :=
  (buildRun (theme.bind THEMES) 0 annotations).elements

/-- The `console.warn` diagnostics emitted during a build, in order. -/
def buildWarnings (theme : Option String) (annotations : List Ann) : List String :=
  (buildRun (theme.bind THEMES) 0 annotations).warnings

/-- `buildSvg` as seen from the process-wide mutable `idCounter`: the call
receives the counter left over by previous builds and begins by resetting it
to 0 (line 545); the returned counter is the value the global holds after the
build. -/
def buildSvgGlobal (idCounter : Nat) (width height : ℚ) (annotations : List Ann)
    (theme : Option String) : String × Nat :=
  let themeDefaults := theme.bind THEMES
  let out := buildRun themeDefaults 0 annotations
  (svgEnvelope width height out.defs out.elements, out.counter)

/-- Result record of `annotateImage` (lines 646-651). -/
structure AnnotateResult where
  outputPath : String
  width : ℚ
  height : ℚ
  annotationCount : Nat
deriving DecidableEq, Repr

/-- `annotateImage` (lines 624-652), shallowly embedded: the sharp metadata
read is abstracted by passing the measured `width`/`height` in, the
`fs.existsSync` check by `inputExists`, and the composite step by returning
the SVG overlay string alongside the summary record. -/
def annotateImage (inputExists : Bool) (inputPath outputPath : String)
    (width height : ℚ) (annotations : List Ann) (theme : Option String) :
    Except String (AnnotateResult × String) :=
  if !inputExists then
    Except.error ("Input file not found: " ++ inputPath)
  else
    Except.ok (⟨outputPath, width, height, annotations.length⟩,
               buildSvg width height annotations theme)

/-- Exact semantics of lines 228-236 over `ℝ`: the raw segment length
`Math.sqrt(dx*dx + dy*dy)`, zero exactly when `from = to`. -/
noncomputable def curvedLenRaw (dx dy : ℚ) : ℝ :=
  Real.sqrt ((dx : ℝ) * dx + (dy : ℝ) * dy)

/-- Line 232 with its `|| 1` guard: the divisor actually used. -/
noncomputable def curvedLen (dx dy : ℚ) : ℝ :=
  if curvedLenRaw dx dy = 0 then 1 else curvedLenRaw dx dy

/-- The control point `(cx, cy)` of lines 228-235 over `ℝ`. -/
noncomputable def curvedControl (x1 y1 x2 y2 curve : ℚ) : ℝ × ℝ :=
  let midX : ℝ := ((x1 : ℝ) + (x2 : ℝ)) / 2
  let midY : ℝ := ((y1 : ℝ) + (y2 : ℝ)) / 2
  let dx := x2 - x1
  let dy := y2 - y1
  let len := curvedLen dx dy
  let nx := -(dy : ℝ) / len
  let ny := (dx : ℝ) / len
  (midX + nx * (curve : ℝ), midY + ny * (curve : ℝ))

-- ===================================================================
-- Helper lemmas
-- ===================================================================

/-- The assembler loop distributes over list append: the output on
`xs ++ ys` is the output on `xs` followed by the output on `ys` started at
the counter `xs` left behind. -/
theorem buildRun_append (tD : Option (String → Option Defaults)) (c : Nat)
    (xs ys : List Ann) :
    buildRun tD c (xs ++ ys) =
      { counter := (buildRun tD (buildRun tD c xs).counter ys).counter
        defs := (buildRun tD c xs).defs ++ (buildRun tD (buildRun tD c xs).counter ys).defs
        elements := (buildRun tD c xs).elements ++ (buildRun tD (buildRun tD c xs).counter ys).elements
        warnings := (buildRun tD c xs).warnings ++ (buildRun tD (buildRun tD c xs).counter ys).warnings } := by
  induction xs generalizing c with
  | nil => simp [buildRun]
  | cons a rest ih =>
    simp only [List.cons_append, buildRun]
    cases h : compileAnn tD c a with
    | none => simp [ih]
    | some pr =>
      obtain ⟨fr, c1⟩ := pr
      by_cases hd : fr.defs = "" <;> by_cases he : fr.element = "" <;>
        simp [hd, he, ih]

/-- An annotation whose `type` is outside the dispatch switch hits the
`default:` arm. -/
theorem compileAnn_unknown (tD : Option (String → Option Defaults)) (c : Nat)
    (a : Ann) (h : knownType a.type = false) : compileAnn tD c a = none := by
  have hmem : a.type ∉ knownTypes := by
    have h2 := h
    unfold knownType at h2
    exact of_decide_eq_false h2
  simp only [knownTypes, List.mem_cons, List.not_mem_nil, or_false] at hmem
  push_neg at hmem
  obtain ⟨n1, n2, n3, n4, n5, n6, n7, n8, n9, n10, n11, n12, n13, n14, n15, n16, n17⟩ := hmem
  simp [compileAnn, n1, n2, n3, n4, n5, n6, n7, n8, n9, n10, n11, n12, n13, n14, n15, n16, n17]

-- Concrete annotations used by the concrete parts of several claims.
-- (Numeric fields are integers so that serialized strings kernel-reduce.)

def hlAnn : Ann :=
  { type := "highlight", x := some 10, y := some 20, width := some 30,
    height := some 40, opacity := some 1 }

def connAnn : Ann :=
  { type := "connector", fromPt := some (1, 2), toPt := some (3, 4) }

def sparkleAnn : Ann := { type := "sparkle", x := some 1, y := some 1 }

/-- The three-annotation list with one unknown type from the spec (§8). -/
def exampleAnns3 : List Ann := [hlAnn, sparkleAnn, connAnn]

-- ===================================================================
-- Claims
-- ===================================================================

/-- C7: `buildSvg` is deterministic across calls despite the process-wide id
counter: the counter is reset to 0 at the start of every document build
(line 545), so the produced document string (and the counter left behind) is
independent of the counter value a previous build left in the global. -/
theorem C7_build_deterministic (c1 c2 : Nat) (w h : ℚ) (anns : List Ann)
    (theme : Option String) :
    buildSvgGlobal c1 w h anns theme = buildSvgGlobal c2 w h anns theme := rfl

/-- C3: color resolution is total: every palette name maps to its palette
hex, any non-palette nonempty string passes through verbatim, and absent or
falsy (empty) input resolves to the default red `#E53935`; in particular
`blue ↦ #1E88E5` and `#123456 ↦ #123456`. -/
theorem C3_color_resolution :
    (∀ p ∈ COLORS, getColor (some p.1) = p.2) ∧
    (∀ s : String, COLORS.lookup s = none → s ≠ "" → getColor (some s) = s) ∧
    getColor none = "#E53935" ∧
    getColor (some ("")) = "#E53935" ∧
    getColor (some ("blue")) = "#1E88E5" ∧
    getColor (some ("#123456")) = "#123456" := by
  refine ⟨by decide, ?_, rfl, rfl, by decide, by decide⟩
  intro s h1 h2
  simp [getColor, h1, h2]

theorem C3_color_resolution_witness :
    getColor (some ("green")) = "#43A047" ∧ getColor (some ("#ABCDEF")) = "#ABCDEF" :=
  ⟨C3_color_resolution.1 (("green"), ("#43A047")) (by decide),
   C3_color_resolution.2.1 ("#ABCDEF") (by decide) (by decide)⟩

/-- The annotation of the spec's theme-merge example (§8):
`{type:"marker", x:0, y:0, number:1, color:"red"}`. -/
def C4ann : Ann :=
  { type := "marker", x := some 0, y := some 0, number := some 1,
    color := some ("red") }

/-- C4: when the active theme defines defaults for the annotation's type, the
merged descriptor takes each theme-default field, and every field explicitly
present on the input overwrites it; concretely, under the `tutorial` theme
(marker default color `green`) an explicit `color:"red"` survives the merge. -/
theorem C4_theme_merge (f : String → Option Defaults) (d : Defaults) (a : Ann)
    (hf : f a.type = some d) :
    ((∀ v, a.color = some v → (mergeWithTheme (some f) a).color = some v) ∧
     (a.color = none → (mergeWithTheme (some f) a).color = d.color) ∧
     (∀ v, a.size = some v → (mergeWithTheme (some f) a).size = some v) ∧
     (a.size = none → (mergeWithTheme (some f) a).size = d.size) ∧
     (∀ v, a.strokeWidth = some v → (mergeWithTheme (some f) a).strokeWidth = some v) ∧
     (a.strokeWidth = none → (mergeWithTheme (some f) a).strokeWidth = d.strokeWidth) ∧
     (∀ v, a.fontSize = some v → (mergeWithTheme (some f) a).fontSize = some v) ∧
     (a.fontSize = none → (mergeWithTheme (some f) a).fontSize = d.fontSize) ∧
     (∀ v, a.background = some v → (mergeWithTheme (some f) a).background = some v) ∧
     (a.background = none → (mergeWithTheme (some f) a).background = d.background) ∧
     (mergeWithTheme (some f) a).type = a.type) ∧
    (mergeWithTheme ((some ("tutorial")).bind THEMES) C4ann).color = some ("red") := by
  constructor
  · simp only [mergeWithTheme, hf]
    refine ⟨?_, ?_, ?_, ?_, ?_, ?_, ?_, ?_, ?_, ?_, ?_⟩ <;>
      first
        | (intro v hv; simp [mergeAnn, hv])
        | (intro hv; simp [mergeAnn, hv])
        | simp [mergeAnn]
  · rfl

theorem C4_theme_merge_witness :
    (mergeWithTheme (some tutorialTheme) C4ann).color = some ("red") :=
  (C4_theme_merge tutorialTheme
      { color := some ("green"), size := some 32 } C4ann rfl).1.1 ("red") rfl

/-- C2 counterexample: the claim says the badge pill for a two-digit number
is wider than for a one-digit number at the same `size`; the code gives
`28 * 1.6 = 44.8` for `number = 15` and `28 * 2 = 56` for `number = 3`, so
the multi-digit pill is in fact narrower. -/
theorem C2_badge_counterexample :
    markerBadgeWidth 28 15 < markerBadgeWidth 28 3 ∧
    ¬ (markerBadgeWidth 28 3 < markerBadgeWidth 28 15) := by
  have h1 : markerBadgeWidth 28 15 = 28 * 1.6 := by
    rw [markerBadgeWidth, if_pos]; norm_num
  have h2 : markerBadgeWidth 28 3 = 28 * 2 := by
    rw [markerBadgeWidth, if_neg]; norm_num
  rw [h1, h2]
  norm_num

/-- C2 (amended): a badge marker with a number above 9 takes the multi-digit
branch `size * 1.6` (per-character width `0.8 * size` for two digits, versus
`2 * size` for one), so at equal positive `size` the multi-digit pill is
narrower, not wider, than the single-digit pill. -/
theorem C2_badge_width (size n m : ℚ) (hn : 9 < n) (hm : m ≤ 9) (hs : 0 < size) :
    markerBadgeWidth size n = size * 1.6 ∧
    markerBadgeWidth size m = size * 2 ∧
    markerBadgeWidth size n < markerBadgeWidth size m := by
  have h1 : markerBadgeWidth size n = size * 1.6 := by
    rw [markerBadgeWidth, if_pos hn]
  have h2 : markerBadgeWidth size m = size * 2 := by
    rw [markerBadgeWidth, if_neg (not_lt.mpr hm)]
  refine ⟨h1, h2, ?_⟩
  rw [h1, h2]
  nlinarith

theorem C2_badge_width_witness :
    markerBadgeWidth 28 15 = 28 * 1.6 ∧ markerBadgeWidth 28 3 = 28 * 2 ∧
    markerBadgeWidth 28 15 < markerBadgeWidth 28 3 :=
  C2_badge_width 28 15 3 (by norm_num) (by norm_num) (by norm_num)

/-- The alias type names of the dispatch switch (C10). -/
def aliasTypes : List String :=
  ["number", "text", "line", "box", "rectangle", "curvedArrow"]

/-- C10: theme defaults are looked up by the literal type string, and the
theme tables only key the canonical names `marker`/`arrow`/`label`/`callout`;
so an annotation typed by an alias receives no theme defaults (merge returns
it unchanged, and compiling under the theme equals compiling without one),
even though the switch dispatches the alias to the same compiler. -/
theorem C10_alias_no_theme_defaults (name : String) (f : String → Option Defaults)
    (hf : THEMES name = some f) (a : Ann) (ha : a.type ∈ aliasTypes) :
    f a.type = none ∧ mergeWithTheme (some f) a = a ∧
    ∀ c, compileAnn (some f) c a = compileAnn none c a := by
  have hth : f = documentationTheme ∨ f = tutorialTheme ∨ f = bugReportTheme ∨
      f = highlightTheme := by
    unfold THEMES at hf
    split_ifs at hf <;> simp_all
  have hd : a.type = "number" ∨ a.type = "text" ∨ a.type = "line" ∨
      a.type = "box" ∨ a.type = "rectangle" ∨ a.type = "curvedArrow" := by
    simpa [aliasTypes] using ha
  have hnone : f a.type = none := by
    rcases hth with h | h | h | h <;> subst h <;>
      rcases hd with h2 | h2 | h2 | h2 | h2 | h2 <;> rw [h2] <;> rfl
  have hmerge : mergeWithTheme (some f) a = a := by
    simp [mergeWithTheme, hnone]
  refine ⟨hnone, hmerge, ?_⟩
  intro c
  unfold compileAnn
  rw [hmerge]
  rfl

theorem C10_alias_no_theme_defaults_witness :
    mergeWithTheme (some documentationTheme)
        { type := "box", x := some 1, y := some 2, width := some 3, height := some 4 } =
      { type := "box", x := some 1, y := some 2, width := some 3, height := some 4 } :=
  (C10_alias_no_theme_defaults ("documentation") documentationTheme rfl _
    (by decide)).2.1

/-- C1: the assembled document's element sequence preserves input-list order:
if annotation `A` precedes `B` in the input and both compile to (nonempty)
element markup, then `A`'s element string occurs before `B`'s in the element
sequence (definitions are grouped separately in the `<defs>` block; relative
element order is exactly the input order). -/
theorem C1_element_order (theme : Option String) (l1 : List Ann) (A : Ann)
    (l2 : List Ann) (B : Ann) (l3 : List Ann) (frA frB : Fragment) (cA cB : Nat)
    (hA : compileAnn (theme.bind THEMES) (buildRun (theme.bind THEMES) 0 l1).counter A
        = some (frA, cA))
    (hAe : frA.element ≠ "")
    (hB : compileAnn (theme.bind THEMES) (buildRun (theme.bind THEMES) cA l2).counter B
        = some (frB, cB))
    (hBe : frB.element ≠ "") :
    ∃ pre mid post : List String,
      buildElements theme (l1 ++ A :: (l2 ++ B :: l3)) =
        pre ++ frA.element :: (mid ++ frB.element :: post) := by
  refine ⟨(buildRun (theme.bind THEMES) 0 l1).elements,
          (buildRun (theme.bind THEMES) cA l2).elements,
          (buildRun (theme.bind THEMES) cB l3).elements, ?_⟩
  unfold buildElements
  rw [buildRun_append]
  simp only [buildRun, hA]
  rw [buildRun_append]
  simp only [buildRun, hB]
  rw [if_neg hAe, if_neg hBe]

theorem C1_element_order_witness :
    ∃ pre mid post : List String,
      buildElements none ([] ++ hlAnn :: ([] ++ connAnn :: [])) =
        pre ++ (createHighlight 0 hlAnn).1.element ::
          (mid ++ (createConnector 0 connAnn).1.element :: post) :=
  C1_element_order none [] hlAnn [] connAnn []
    (createHighlight 0 hlAnn).1 (createConnector 0 connAnn).1
    (createHighlight 0 hlAnn).2 (createConnector 0 connAnn).2
    rfl (by decide) rfl (by decide)

/-- C5: an annotation whose type is not in the dispatch mapping is skipped
with a `console.warn` diagnostic and never aborts the build: removing it from
the input changes nothing except the diagnostic, and the spec's concrete
three-annotation list containing `{type:"sparkle", x:1, y:1}` still yields
exactly two rendered element fragments. -/
theorem C5_unknown_type_skipped (theme : Option String) (l1 : List Ann) (a : Ann)
    (l2 : List Ann) (c : Nat) (h : knownType a.type = false) :
    ((buildRun (theme.bind THEMES) c (l1 ++ a :: l2)).elements =
        (buildRun (theme.bind THEMES) c (l1 ++ l2)).elements ∧
     (buildRun (theme.bind THEMES) c (l1 ++ a :: l2)).defs =
        (buildRun (theme.bind THEMES) c (l1 ++ l2)).defs ∧
     (buildRun (theme.bind THEMES) c (l1 ++ a :: l2)).counter =
        (buildRun (theme.bind THEMES) c (l1 ++ l2)).counter ∧
     (buildRun (theme.bind THEMES) c (l1 ++ a :: l2)).warnings =
        (buildRun (theme.bind THEMES) c l1).warnings ++
          ("Unknown annotation type: " ++ a.type) ::
            (buildRun (theme.bind THEMES) (buildRun (theme.bind THEMES) c l1).counter l2).warnings) ∧
    (buildElements none exampleAnns3).length = 2 ∧
    buildWarnings none exampleAnns3 = ["Unknown annotation type: sparkle"] := by
  refine ⟨?_, by decide, by decide⟩
  have hu := compileAnn_unknown (theme.bind THEMES) (buildRun (theme.bind THEMES) c l1).counter a h
  rw [buildRun_append, buildRun_append]
  simp only [buildRun, hu]
  exact ⟨trivial, trivial, trivial, trivial⟩

theorem C5_unknown_type_skipped_witness :
    (buildRun none 0 ([hlAnn] ++ sparkleAnn :: [connAnn])).elements =
      (buildRun none 0 ([hlAnn] ++ [connAnn])).elements :=
  (C5_unknown_type_skipped none [hlAnn] sparkleAnn [connAnn] 0 (by decide)).1.1

/-- C9: a successful `annotateImage` reports `annotationCount` equal to the
length of the input annotation list — including annotations of unknown type
that were skipped during the build: the three-annotation list with one
unknown type yields only two rendered fragments but reports count 3. -/
theorem C9_annotation_count :
    (∀ (inputExists : Bool) (ip op : String) (w h : ℚ) (anns : List Ann)
       (th : Option String) (r : AnnotateResult) (svg : String),
       annotateImage inputExists ip op w h anns th = Except.ok (r, svg) →
       r.annotationCount = anns.length) ∧
    (∃ r svg, annotateImage true ("photo.png") ("out.png") 100 100 exampleAnns3 none =
        Except.ok (r, svg) ∧ r.annotationCount = 3 ∧ exampleAnns3.length = 3) ∧
    (buildElements none exampleAnns3).length = 2 := by
  refine ⟨?_, ⟨⟨("out.png"), 100, 100, exampleAnns3.length⟩,
               buildSvg 100 100 exampleAnns3 none, rfl, rfl, rfl⟩, by decide⟩
  intro inputExists ip op w h anns th r svg heq
  cases inputExists with
  | false => simp [annotateImage] at heq
  | true =>
    simp only [annotateImage, Bool.not_true, Bool.false_eq_true, if_false,
      Except.ok.injEq, Prod.mk.injEq] at heq
    rw [← heq.1]

theorem C9_annotation_count_witness :
    (⟨("out.png"), 100, 100, (3 : Nat)⟩ : AnnotateResult).annotationCount =
      exampleAnns3.length :=
  C9_annotation_count.1 true ("photo.png") ("out.png") 100 100 exampleAnns3 none
    _ (buildSvg 100 100 exampleAnns3 none) rfl

/-- C8: the curved-arrow control-point computation is total: the divisor
`len` (line 232) is `Math.sqrt(dx*dx + dy*dy) || 1`, which is strictly
positive for every input — in particular no division by zero occurs — and in
the degenerate case `from = to` the guard makes the control point coincide
with the endpoint itself, so the emitted path coordinates are well-defined
numbers. -/
theorem C8_curved_arrow_total (x1 y1 x2 y2 curve : ℚ) :
    0 < curvedLen (x2 - x1) (y2 - y1) ∧
    ((x1, y1) = (x2, y2) → curvedControl x1 y1 x2 y2 curve = ((x1 : ℝ), (y1 : ℝ))) := by
  constructor
  · unfold curvedLen
    split
    · exact one_pos
    · next hne =>
      exact lt_of_le_of_ne (Real.sqrt_nonneg _) (Ne.symm hne)
  · intro heq
    rw [Prod.mk.injEq] at heq
    obtain ⟨hx, hy⟩ := heq
    subst hx
    subst hy
    unfold curvedControl curvedLen curvedLenRaw
    norm_num

theorem C8_curved_arrow_total_witness :
    curvedControl 3 4 3 4 5 = ((3 : ℝ), (4 : ℝ)) ∧ 0 < curvedLen (3 - 3) (4 - 4) :=
  ⟨(C8_curved_arrow_total 3 4 3 4 5).2 rfl, (C8_curved_arrow_total 3 4 3 4 5).1⟩

/-- Prefix-shifting an append chain across one marked substring. -/
theorem append_shift (A B s u : String) :
    ∃ pre, A ++ ((B ++ s) ++ u) = (pre ++ s) ++ u :=
  ⟨A ++ B, by simp only [String.append_assoc]⟩

/-- Prefix- and suffix-shifting a five-part append chain across a marked
substring. -/
theorem append_shift3 (X p T s ts q Y : String) :
    ∃ pre post, (X ++ ((p ++ ((T ++ s) ++ ts)) ++ q)) ++ Y = (pre ++ s) ++ (ts ++ post) :=
  ⟨X ++ (p ++ T), q ++ Y, by simp only [String.append_assoc]⟩

/-- Every member of a list occurs in its enumeration (at some index). -/
theorem mem_enumFrom_of_mem {α : Type} :
    ∀ (l : List α) (x : α) (n : ℕ), x ∈ l → ∃ i, (i, x) ∈ l.enumFrom n := by
  intro l
  induction l with
  | nil =>
    intro x n hx
    cases hx
  | cons a rest ih =>
    intro x n hx
    rw [List.mem_cons] at hx
    cases hx with
    | inl h =>
      subst h
      exact ⟨n, List.mem_cons_self _ _⟩
    | inr h =>
      obtain ⟨i, hi⟩ := ih x (n + 1) h
      exact ⟨i, List.mem_cons_of_mem _ hi⟩

theorem mem_enum_of_mem {α : Type} (l : List α) (x : α) (hx : x ∈ l) :
    ∃ i, (i, x) ∈ l.enum :=
  mem_enumFrom_of_mem l x 0 hx

/-- Joining the images of a list: each member's image occurs as a substring
(with `""` as separator, i.e. `join`). -/
theorem joinSep_map_mem {α : Type} (g : α → String) :
    ∀ (l : List α) (x : α), x ∈ l →
      ∃ p q, joinSep ("") (l.map g) = (p ++ g x) ++ q := by
  intro l
  induction l with
  | nil =>
    intro x hx
    cases hx
  | cons a rest ih =>
    intro x hx
    rw [List.mem_cons] at hx
    cases hx with
    | inl hxa =>
      subst hxa
      cases rest with
      | nil =>
        refine ⟨"", "", ?_⟩
        show g x = ("" ++ g x) ++ ""
        rw [String.empty_append, String.append_empty]
      | cons b t =>
        refine ⟨"", joinSep ("") ((b :: t).map g), ?_⟩
        show g x ++ "" ++ joinSep ("") ((b :: t).map g) = _
        rw [String.append_empty, String.empty_append]
    | inr hxr =>
      obtain ⟨p, q, hp⟩ := ih x hxr
      cases rest with
      | nil => cases hxr
      | cons b t =>
        refine ⟨g a ++ p, q, ?_⟩
        show g a ++ "" ++ joinSep ("") ((b :: t).map g) = ((g a ++ p) ++ g x) ++ q
        rw [String.append_empty, hp]
        simp only [String.append_assoc]

/-- Any line of the split text yields its escaped form inside the tspan run
of a callout-shaped element string. -/
theorem callout_element_shape (X : String) (bx pd lh : ℚ) (L : List String)
    (Y : String) (line : String) (hline : line ∈ L) :
    ∃ pre post : String,
      (X ++ joinSep ("") ((L.enum).map (calloutTspan bx pd lh))) ++ Y =
        (pre ++ escapeXml line) ++ ("</tspan>" ++ post) := by
  obtain ⟨i, hi⟩ := mem_enum_of_mem L line hline
  obtain ⟨p, q, hp⟩ := joinSep_map_mem (calloutTspan bx pd lh) (L.enum) (i, line) hi
  rw [hp]
  simp only [calloutTspan]
  exact append_shift3 _ _ _ _ _ _ _

/-- C6: text inserted into a generated text node is escaped for embedding:
`escapeXml "<A & B>"` is exactly `"&lt;A &amp; B&gt;"` (no raw angle
brackets); every label's text node content is `escapeXml` of its text, and
every line of every (possibly multi-line, newline-split) callout text appears
in the element only as its `escapeXml` form inside a tspan. -/
theorem C6_text_escaped :
    escapeXml ("<A & B>") = "&lt;A &amp; B&gt;" ∧
    (∀ ch ∈ (escapeXml ("<A & B>")).toList, ch ≠ '<' ∧ ch ≠ '>') ∧
    (∀ (c : Nat) (a : Ann), ∃ pre : String,
      ((createLabel c a).1).element =
        (pre ++ escapeXml (a.text.getD (""))) ++ "</text>\n  ") ∧
    (∀ (c : Nat) (a : Ann) (line : String),
      line ∈ splitChar ('\n') (a.text.getD ("")) →
      ∃ pre post : String,
        ((createCallout c a).1).element =
          (pre ++ escapeXml line) ++ ("</tspan>" ++ post)) := by
  refine ⟨by decide, by decide, ?_, ?_⟩
  · intro c a
    cases hbg : strTruthy a.background with
    | false =>
      simp only [createLabel, hbg, Bool.false_eq_true, if_false, List.nil_append]
      exact ⟨_, rfl⟩
    | true =>
      simp only [createLabel, hbg, if_true, List.cons_append, List.nil_append, joinSep]
      exact append_shift _ _ _ _
  · intro c a line hline
    simp only [createCallout]
    exact callout_element_shape _ _ _ _ _ _ _ hline

/-- A two-line callout text: the witness exercises the second line. -/
def calloutAbAnn : Ann :=
  { type := "callout", x := some 5, y := some 6, text := some ("a\nb") }

theorem C6_text_escaped_witness :
    ∃ pre post : String,
      ((createCallout 0 calloutAbAnn).1).element =
        (pre ++ escapeXml ("b")) ++ ("</tspan>" ++ post) :=
  C6_text_escaped.2.2.2 0 calloutAbAnn ("b") (by decide)
